import Mathlib

/-!
Verification of the walking-challenge route builder (`get_route_nodes.py`).

The script resolves a driving route through the OSRM service, cleans the
returned node sequence with a five-entry look-back window, annotates every
node with previous / next / cumulative great-circle distances, and writes a
csv file plus geojson point and line feature collections.  This file gives a
shallow embedding of those stages and proves the design document's claims
about them.  Python floats are modelled as real numbers; nullable values
(`None` / `NaN` under `pandas.isnull`) are modelled with `Option`; the
rendering of a float by `str` is an abstract parameter `fmt : ℝ → String`.
-/

namespace RouteBuilder

/-- Degrees-to-radians conversion, `math.radians x = x * pi / 180`. -/
noncomputable def radians (x : ℝ) : ℝ := x * (Real.pi / 180)

/-- Two-argument arctangent as computed by `math.atan2 y x` (real-number
semantics, ignoring signed zeros). -/
noncomputable def atan2 (y x : ℝ) : ℝ :=
  if 0 < x then Real.arctan (y / x)
  else if x < 0 then
    (if 0 ≤ y then Real.arctan (y / x) + Real.pi else Real.arctan (y / x) - Real.pi)
  else
    (if 0 < y then Real.pi / 2 else if y < 0 then -(Real.pi / 2) else 0)

/-- Body of the script's `gcd` after the null guard (lines 52-62):
`a = sin²(lat_diff/2) + cos(radians o_lat) * cos(radians d_lat) * sin²(lon_diff/2)`,
`c = 2 * atan2 (sqrt a) (sqrt (1 - a))`, result `earth_radius * c` with
`earth_radius = 3956` miles. -/
noncomputable def gcd_core (o_lat o_lon d_lat d_lon : ℝ) : ℝ :=
  let earth_radius : ℝ := 3956
  let lat_diff := radians (d_lat - o_lat)
  let lon_diff := radians (d_lon - o_lon)
  let a := Real.sin (lat_diff / 2) ^ 2 +
    Real.cos (radians o_lat) * Real.cos (radians d_lat) * Real.sin (lon_diff / 2) ^ 2
  let c := 2 * atan2 (Real.sqrt a) (Real.sqrt (1 - a))
  earth_radius * c

/-- The script's `gcd` (lines 37-62): if any of the four inputs is null
(`pandas.isnull`), the function returns 0; otherwise it computes the
Haversine distance. -/
noncomputable def gcd : Option ℝ → Option ℝ → Option ℝ → Option ℝ → ℝ
  | some ola, some olo, some dla, some dlo => gcd_core ola olo dla dlo
  | _, _, _, _ => 0

/-- One entry of a node list: `[node_id, node_lat, node_lon]` in the script. -/
structure RoutePoint where
  node_id : String
  node_lat : ℝ
  node_lon : ℝ

/-- The cleaning loop of lines 179-191.  `w` is `prev_5_nodes`; the integer
sentinel `0` (which can never compare equal to a node id string) is modelled
by `none` and a stored id by `some id`.  A point whose id occurs in the
window is dropped; otherwise it is appended to the output and the window
shifts (`del prev_5_nodes[0]` then `append`). -/
def dedupeAux : List (Option String) → List RoutePoint → List RoutePoint
  | _, [] => []
  | w, p :: ps =>
    if some p.node_id ∈ w then dedupeAux w ps
    else p :: dedupeAux (w.drop 1 ++ [some p.node_id]) ps

/-- The whole cleaning pass: window initialised to five sentinels
(`prev_5_nodes = [0,0,0,0,0]`). -/
def dedupe (ps : List RoutePoint) : List RoutePoint :=
  dedupeAux (List.replicate 5 none) ps

/-- Written from the spec's words (§4.3): the look-back window holding the
ids of the five most recently kept points, left-padded with the sentinel. -/
def recent_kept (kept : List String) : List (Option String) :=
  (List.replicate 5 none ++ kept.map some).drop kept.length

/-- Written from the spec's words (§4.3): process points in input order,
dropping a point whose id is in the current window of the five most recently
kept ids, otherwise keeping it and recording its id. -/
def dedupeFrom : List String → List RoutePoint → List RoutePoint
  | _, [] => []
  | kept, p :: ps =>
    if some p.node_id ∈ recent_kept kept then dedupeFrom kept ps
    else p :: dedupeFrom (kept ++ [p.node_id]) ps

/-- Column `prev_lat` (line 207): `node_lat` shifted down one row, null in
row 0. -/
def col_prev_lat (ps : List RoutePoint) (i : ℕ) : Option ℝ :=
  if i = 0 then none else (ps[i - 1]?).map RoutePoint.node_lat

/-- Column `prev_lon` (line 207): `node_lon` shifted down one row, null in
row 0. -/
def col_prev_lon (ps : List RoutePoint) (i : ℕ) : Option ℝ :=
  if i = 0 then none else (ps[i - 1]?).map RoutePoint.node_lon

/-- Column `dist_from_prev` (lines 208-210): `gcd` of the previous and the
current coordinates; 0 in row 0 because the shifted inputs are null there. -/
noncomputable def dist_from_prev (ps : List RoutePoint) (i : ℕ) : ℝ :=
  gcd (col_prev_lat ps i) (col_prev_lon ps i)
    ((ps[i]?).map RoutePoint.node_lat) ((ps[i]?).map RoutePoint.node_lon)

/-- Column `dist_to_next` (lines 213-214): `dist_from_prev` shifted up one
row, with the trailing null replaced by 0 (`fillna(0)`). -/
noncomputable def dist_to_next (ps : List RoutePoint) (i : ℕ) : ℝ :=
  if i + 1 < ps.length then dist_from_prev ps (i + 1) else 0

/-- Column `cuml_dist` (lines 217-218): running sum (`cumsum`) of
`dist_from_prev`. -/
noncomputable def cuml_dist (ps : List RoutePoint) (i : ℕ) : ℝ :=
  ∑ j ∈ Finset.range (i + 1), dist_from_prev ps j

/-- A row of the annotated dataframe after the `prev_lat` / `prev_lon`
columns are dropped (line 221). -/
structure AnnotatedNode where
  node_id : String
  node_lat : ℝ
  node_lon : ℝ
  dist_from_prev : ℝ
  dist_to_next : ℝ
  cuml_dist : ℝ

/-- The annotation stage (lines 204-221): the dataframe keeps the original
`node_id`, `node_lat`, `node_lon` columns and gains the three distance
columns. -/
noncomputable def annotate (ps : List RoutePoint) : List AnnotatedNode :=
  ps.mapIdx fun i p =>
    ⟨p.node_id, p.node_lat, p.node_lon,
      dist_from_prev ps i, dist_to_next ps i, cuml_dist ps i⟩

/-- Coordinate validity from the data model (§3): latitude in [-90, 90],
longitude in [-180, 180]. -/
def valid_coord (lat lon : ℝ) : Prop :=
  -90 ≤ lat ∧ lat ≤ 90 ∧ -180 ≤ lon ∧ lon ≤ 180

/-- `point_string` (lines 111-135): the geojson point feature emitted for one
dataframe row, with `row.name` (the 0-based index) passed as `name`.  A comma
is appended unless the row is the last one (`points_count - 1`, computed over
the integers as in Python). -/
def point_string (fmt : ℝ → String) (row : AnnotatedNode) (name points_count : ℕ) : String :=
  let s : String :=
    "    \x7b" ++
    "      \"type\": \"Feature\"," ++
    "      \"properties\": \x7b " ++
    "        \"node_order\": " ++ toString name ++ "," ++
    "        \"node_id\": \"" ++ row.node_id ++ "\"," ++
    "        \"distance_from_prev_node\": " ++ fmt row.dist_from_prev ++ "," ++
    "        \"cuml_distance\": " ++ fmt row.cuml_dist ++ "," ++
    "        \"distance_to_next_node\": " ++ fmt row.dist_to_next ++ "," ++
    "        \"type\": \"route node\"" ++
    "      \x7d," ++
    "      \"geometry\": \x7b" ++
    "        \"type\": \"Point\"," ++
    "        \"coordinates\": [" ++ fmt row.node_lon ++ "," ++ fmt row.node_lat ++ "]" ++
    "      \x7d" ++
    "    \x7d"
  if (name : ℤ) = (points_count : ℤ) - 1 then s else s ++ ","

/-- `line_string` (lines 138-148): one `[lon,lat]` coordinate pair of the line
feature, with a comma appended unless the row is the last one. -/
def line_string (fmt : ℝ → String) (row : AnnotatedNode) (name points_count : ℕ) : String :=
  let s : String := "[" ++ fmt row.node_lon ++ "," ++ fmt row.node_lat ++ "]"
  if (name : ℤ) = (points_count : ℤ) - 1 then s else s ++ ","

/-- Written from the spec's words (§4.5), with the property key amended to the
`cuml_distance` spelling the code actually emits: one point feature carrying
`node_order` (the 0-based position), `node_id`, `distance_from_prev_node`,
`cuml_distance`, `distance_to_next_node` and the fixed `type` tag
`route node`, whose geometry is a point at `[lon, lat]`, longitude first.
Whitespace follows the emitted layout. -/
def spec_point_feature (fmt : ℝ → String) (row : AnnotatedNode) (order : ℕ) : String :=
  "    \x7b" ++
  "      \"type\": \"Feature\"," ++
  "      \"properties\": \x7b " ++
  "        \"node_order\": " ++ toString order ++ "," ++
  "        \"node_id\": \"" ++ row.node_id ++ "\"," ++
  "        \"distance_from_prev_node\": " ++ fmt row.dist_from_prev ++ "," ++
  "        \"cuml_distance\": " ++ fmt row.cuml_dist ++ "," ++
  "        \"distance_to_next_node\": " ++ fmt row.dist_to_next ++ "," ++
  "        \"type\": \"route node\"" ++
  "      \x7d," ++
  "      \"geometry\": \x7b" ++
  "        \"type\": \"Point\"," ++
  "        \"coordinates\": [" ++ fmt row.node_lon ++ "," ++ fmt row.node_lat ++ "]" ++
  "      \x7d" ++
  "    \x7d"

/-- The per-row point feature strings (line 253): `point_string` applied to
every row with its index, the row count being the dataframe length. -/
def point_features (fmt : ℝ → String) (df : List AnnotatedNode) : List String :=
  df.mapIdx fun i row => point_string fmt row i df.length

/-- Header cell of the point collection (lines 244-246). -/
def points_header : String :=
  "\x7b" ++ "  \"type\" : \"FeatureCollection\"," ++ "  \"features\" : ["

/-- Footer cell of the point collection (lines 249-250). -/
def points_footer : String := "  ]" ++ "\x7d"

/-- The series written to the points geojson file (line 254): header cell,
one cell per row, footer cell. -/
def s_points (fmt : ℝ → String) (df : List AnnotatedNode) : List String :=
  [points_header] ++ point_features fmt df ++ [points_footer]

/-- The per-row line coordinate strings (line 281). -/
def line_features (fmt : ℝ → String) (df : List AnnotatedNode) : List String :=
  df.mapIdx fun i row => line_string fmt row i df.length

/-- Header cell of the line collection (lines 263-271). -/
def line_header : String :=
  "\x7b" ++ "  \"type\" : \"FeatureCollection\"," ++ "  \"features\" : [" ++
  "    \x7b" ++ "      \"type\" : \"Feature\"," ++ "      \"properties\" : \x7b\x7d," ++
  "      \"geometry\" : \x7b" ++ "        \"type\" : \"LineString\"," ++
  "        \"coordinates\" : ["

/-- Footer cell of the line collection (lines 274-278). -/
def line_footer : String :=
  "        ]" ++ "      \x7d" ++ "    \x7d" ++ "  ]" ++ "\x7d"

/-- The series written to the line geojson file (line 282). -/
def s_line (fmt : ℝ → String) (df : List AnnotatedNode) : List String :=
  [line_header] ++ line_features fmt df ++ [line_footer]

/-- Rendering of one series cell by `Series.to_string` under pandas' default
`display.max_colwidth` of 50, which the script never changes: a cell longer
than 50 characters is replaced by its first 47 characters followed by three
dots.  (The column-width padding `to_string` also applies only adds spaces
and is omitted here, as it cannot repair the truncation.) -/
def render_cell (s : String) : String :=
  if 50 < s.data.length then String.mk (s.data.take 47) ++ "..." else s

/-- The lines of `route_points_geojson.geojson` as written on line 257. -/
def points_file_lines (fmt : ℝ → String) (df : List AnnotatedNode) : List String :=
  (s_points fmt df).map render_cell

/-- The lines of `route_line_geojson.geojson` as written on line 285. -/
def line_file_lines (fmt : ℝ → String) (df : List AnnotatedNode) : List String :=
  (s_line fmt df).map render_cell

/-- Total number of occurrences of character `c` in a list of lines. -/
def charCount (c : Char) (lines : List String) : ℕ :=
  (lines.map fun s => s.data.count c).sum

/-- Does `pat` lead (element-wise) the list `s`? -/
def listLeads : List Char → List Char → Bool
  | [], _ => true
  | _ :: _, [] => false
  | p :: ps, c :: cs => p == c && listLeads ps cs

/-- Does `pat` occur contiguously anywhere inside `s`? -/
def hasSubstr (pat : List Char) : List Char → Bool
  | [] => listLeads pat []
  | c :: cs => listLeads pat (c :: cs) || hasSubstr pat cs

/-- One intersection of an OSRM step: `location` is the `[lon, lat]` pair. -/
structure Intersection where
  location : ℝ × ℝ

/-- One step of an OSRM leg. -/
structure RouteStep where
  intersections : List Intersection

/-- One leg of an OSRM route. -/
structure RouteLeg where
  steps : List RouteStep

/-- One route of an OSRM response. -/
structure RouteJson where
  routes_legs : List RouteLeg

/-- The parsed body of an OSRM response. -/
structure RouteBody where
  routes : List RouteJson

/-- An HTTP response: status code, and `some` parsed body when the text is
JSON containing a `routes` field, else `none`. -/
structure HttpResponse where
  status : ℕ
  body : Option RouteBody

/-- The parse of line 95, `json.loads(r.text)['routes'][0]['legs'][0]['steps']`:
`none` models the exception Python raises when a field is absent or an index
is out of range. -/
def extract_steps (b : Option RouteBody) : Option (List RouteStep) :=
  b.bind fun rb => rb.routes.head?.bind fun r0 => r0.routes_legs.head?.map fun l0 => l0.steps

/-- The two failure modes of `get_nodes`: a non-200 status (the early
`return` of lines 84-88) and a 200 response whose body lacks the expected
route fields (the uncaught exception of line 95). -/
inductive FetchErr where
  | routeUnavailable : FetchErr
  | malformedResponse : FetchErr
deriving DecidableEq

/-- `get_nodes` (lines 65-108) as a function of the HTTP response it
receives: on a non-200 status it produces no node list; on a 200 response it
extracts every step's intersections in order (id `str(lat) + '|' + str(lon)`,
latitude `location[1]`, longitude `location[0]`), then prepends the `start`
point at the origin and appends the `end` point at the destination. -/
def get_nodes (fmt : ℝ → String) (o_lat o_lon d_lat d_lon : ℝ) (r : HttpResponse) :
    Except FetchErr (List RoutePoint) :=
  if r.status ≠ 200 then Except.error FetchErr.routeUnavailable
  else
    match extract_steps r.body with
    | none => Except.error FetchErr.malformedResponse
    | some steps =>
        Except.ok (⟨"start", o_lat, o_lon⟩ ::
          ((steps.map fun s => s.intersections.map fun i =>
              (⟨fmt i.location.2 ++ "|" ++ fmt i.location.1,
                i.location.2, i.location.1⟩ : RoutePoint)).foldr (fun a b => a ++ b) [] ++
            [⟨"end", d_lat, d_lon⟩]))

/-- Written from the spec's words (§4.2, §7): a response is well-formed when
the service returned status 200 and the body parses with a first route and a
first leg present. -/
def wellFormedResponse (r : HttpResponse) : Prop :=
  r.status = 200 ∧
    ∃ rb r0 l0, r.body = some rb ∧ rb.routes.head? = some r0 ∧
      r0.routes_legs.head? = some l0

/-- The caller's path from the fetch to the cleaning loop (lines 161-191): the
dedup pass runs on the fetched node list; a failed fetch leaves no list to
clean. -/
def run_pipeline (fmt : ℝ → String) (o_lat o_lon d_lat d_lon : ℝ) (r : HttpResponse) :
    Except FetchErr (List RoutePoint) :=
  Except.map dedupe (get_nodes fmt o_lat o_lon d_lat d_lon r)

/-- Concrete route points used by witnesses and examples. -/
def pA : RoutePoint := ⟨"A", 0, 0⟩

def pB : RoutePoint := ⟨"B", 0, 0⟩

def pC : RoutePoint := ⟨"C", 0, 0⟩

def pD : RoutePoint := ⟨"D", 0, 0⟩

def pE : RoutePoint := ⟨"E", 0, 0⟩

def pF : RoutePoint := ⟨"F", 0, 0⟩

/-- A concrete float renderer for closed evaluations. -/
def fmt0 : ℝ → String := fun _ => "0"

/-- A concrete annotated row for closed evaluations. -/
noncomputable def row0 : AnnotatedNode := ⟨"start", 33, -84, 0, 0, 0⟩

/-- A failed HTTP response. -/
def resp404 : HttpResponse := ⟨404, none⟩

/-- A successful HTTP response with one route, one leg and no steps. -/
def resp200 : HttpResponse := ⟨200, some ⟨[⟨[⟨[]⟩]⟩]⟩⟩

/-! ### Distance calculator -/

lemma gcd_core_eq (o_lat o_lon d_lat d_lon : ℝ) :
    gcd_core o_lat o_lon d_lat d_lon =
      3956 * (2 * atan2
        (Real.sqrt (Real.sin (radians (d_lat - o_lat) / 2) ^ 2 +
          Real.cos (radians o_lat) * Real.cos (radians d_lat) *
            Real.sin (radians (d_lon - o_lon) / 2) ^ 2))
        (Real.sqrt (1 - (Real.sin (radians (d_lat - o_lat) / 2) ^ 2 +
          Real.cos (radians o_lat) * Real.cos (radians d_lat) *
            Real.sin (radians (d_lon - o_lon) / 2) ^ 2)))) := rfl

lemma atan2_nonneg {y : ℝ} (x : ℝ) (hy : 0 ≤ y) : 0 ≤ atan2 y x := by
  have hpi := Real.pi_pos
  have harc : ∀ z : ℝ, 0 ≤ z → 0 ≤ Real.arctan z := fun z hz => by
    rw [← Real.arctan_zero]
    exact Real.arctan_strictMono.monotone hz
  rw [atan2]
  split_ifs with h1 h2 h3 h4 <;>
    first
      | exact harc _ (div_nonneg hy h1.le)
      | linarith [Real.neg_pi_div_two_lt_arctan (y / x)]

lemma gcd_core_nonneg (o_lat o_lon d_lat d_lon : ℝ) :
    0 ≤ gcd_core o_lat o_lon d_lat d_lon := by
  rw [gcd_core_eq]
  have h := atan2_nonneg
    (Real.sqrt (1 - (Real.sin (radians (d_lat - o_lat) / 2) ^ 2 +
      Real.cos (radians o_lat) * Real.cos (radians d_lat) *
        Real.sin (radians (d_lon - o_lon) / 2) ^ 2)))
    (Real.sqrt_nonneg (Real.sin (radians (d_lat - o_lat) / 2) ^ 2 +
      Real.cos (radians o_lat) * Real.cos (radians d_lat) *
        Real.sin (radians (d_lon - o_lon) / 2) ^ 2))
  positivity

lemma atan2_zero_one : atan2 0 1 = 0 := by
  rw [atan2, if_pos one_pos, zero_div, Real.arctan_zero]

lemma radians_zero : radians 0 = 0 := by
  rw [radians, zero_mul]

lemma gcd_core_self (la lo : ℝ) : gcd_core la lo la lo = 0 := by
  rw [gcd_core_eq, sub_self, sub_self, radians_zero, zero_div, Real.sin_zero]
  norm_num [Real.sqrt_one, atan2_zero_one]

lemma gcd_some_eq (a b c d : ℝ) :
    gcd (some a) (some b) (some c) (some d) = gcd_core a b c d := rfl

lemma gcd_nonneg (a b c d : Option ℝ) : 0 ≤ gcd a b c d := by
  cases a <;> cases b <;> cases c <;> cases d <;>
    first
      | exact le_refl 0
      | exact gcd_core_nonneg _ _ _ _

/-- C6: for valid (in-range, non-missing) coordinates the great-circle
distance is non-negative, and it is exactly 0 when the origin equals the
destination. -/
theorem gcd_nonneg_and_zero_on_equal (o_lat o_lon d_lat d_lon : ℝ)
    (h₁ : valid_coord o_lat o_lon) (h₂ : valid_coord d_lat d_lon) :
    0 ≤ gcd (some o_lat) (some o_lon) (some d_lat) (some d_lon) ∧
      gcd (some o_lat) (some o_lon) (some o_lat) (some o_lon) = 0 :=
  ⟨gcd_nonneg _ _ _ _, by rw [gcd_some_eq, gcd_core_self]⟩

/-- Witness for C6 at the concrete coordinates (33, -84) and (34, -85). -/
theorem gcd_nonneg_and_zero_on_equal_witness :
    0 ≤ gcd (some 33) (some (-84)) (some 34) (some (-85)) ∧
      gcd (some 33) (some (-84)) (some 33) (some (-84)) = 0 :=
  gcd_nonneg_and_zero_on_equal 33 (-84) 34 (-85)
    (by norm_num [valid_coord]) (by norm_num [valid_coord])

/-- C7: a missing (null) value in any argument position, in any combination,
makes `gcd` return 0 instead of failing. -/
theorem gcd_missing_input_zero (a b c d : Option ℝ)
    (h : a = none ∨ b = none ∨ c = none ∨ d = none) :
    gcd a b c d = 0 := by
  cases a <;> cases b <;> cases c <;> cases d <;> simp_all [gcd]

/-- Witness for C7 with the first argument missing. -/
theorem gcd_missing_input_zero_witness : gcd none (some 1) (some 2) (some 3) = 0 :=
  gcd_missing_input_zero none (some 1) (some 2) (some 3) (Or.inl rfl)

/-! ### Sequence deduplicator -/

lemma recent_kept_nil : recent_kept [] = List.replicate 5 none := rfl

lemma recent_kept_push (kept : List String) (i : String) :
    recent_kept (kept ++ [i]) = (recent_kept kept).drop 1 ++ [some i] := by
  unfold recent_kept
  rw [List.map_append, ← List.append_assoc, List.drop_drop,
    List.drop_append_of_le_length (by
      simp only [List.length_append, List.length_replicate, List.length_map,
        List.length_cons, List.length_nil]
      omega)]
  congr 2
  simp only [List.length_append, List.length_cons, List.length_nil]

lemma dedupeAux_eq_dedupeFrom (ps : List RoutePoint) :
    ∀ kept : List String, dedupeAux (recent_kept kept) ps = dedupeFrom kept ps := by
  induction ps with
  | nil => intro kept; rfl
  | cons p ps ih =>
    intro kept
    rw [dedupeAux, dedupeFrom]
    by_cases h : some p.node_id ∈ recent_kept kept
    · rw [if_pos h, if_pos h, ih]
    · rw [if_neg h, if_neg h, ← recent_kept_push, ih]

lemma dedupe_eq_dedupeFrom (ps : List RoutePoint) : dedupe ps = dedupeFrom [] ps := by
  rw [dedupe, ← recent_kept_nil, dedupeAux_eq_dedupeFrom]

lemma dedupeFrom_idem (ps : List RoutePoint) :
    ∀ kept : List String, dedupeFrom kept (dedupeFrom kept ps) = dedupeFrom kept ps := by
  induction ps with
  | nil => intro kept; rfl
  | cons p ps ih =>
    intro kept
    by_cases h : some p.node_id ∈ recent_kept kept
    · rw [dedupeFrom, if_pos h, ih]
    · rw [dedupeFrom, if_neg h, dedupeFrom, if_neg h, ih]

/-- C2: the cleaning pass keeps a point exactly when its id is absent from
the window of the five most recently kept ids (`dedupeFrom`, written from the
spec, makes that window explicit; the sentinel padding matches no real id),
and on the two worked examples it keeps `[A,B,C]` from `[A,B,A,C,A]` and
keeps the final `A` of `[A,B,C,D,E,F,A]` because the window has rotated past
the first `A`. -/
theorem dedupe_window_spec :
    (∀ ps : List RoutePoint, dedupe ps = dedupeFrom [] ps) ∧
      dedupe [pA, pB, pA, pC, pA] = [pA, pB, pC] ∧
      dedupe [pA, pB, pC, pD, pE, pF, pA] = [pA, pB, pC, pD, pE, pF, pA] :=
  ⟨dedupe_eq_dedupeFrom, rfl, rfl⟩

/-- C5: running the cleaning pass on its own output changes nothing. -/
theorem dedupe_idempotent (ps : List RoutePoint) : dedupe (dedupe ps) = dedupe ps := by
  rw [dedupe_eq_dedupeFrom ps, dedupe_eq_dedupeFrom (dedupeFrom [] ps), dedupeFrom_idem]

/-! ### Distance annotator -/

lemma dist_from_prev_nonneg (ps : List RoutePoint) (i : ℕ) : 0 ≤ dist_from_prev ps i :=
  gcd_nonneg _ _ _ _

/-- C1: the three distance columns are internally consistent:
`dist_to_next` at `i` equals `dist_from_prev` at `i + 1` below the last row,
`dist_from_prev` is 0 in row 0, `dist_to_next` is 0 in the last row, and the
last `cuml_dist` is the sum of the whole `dist_from_prev` column. -/
theorem annotation_fields_consistent (ps : List RoutePoint) :
    (∀ i, i + 1 < ps.length → dist_to_next ps i = dist_from_prev ps (i + 1)) ∧
      dist_from_prev ps 0 = 0 ∧
      (ps ≠ [] → dist_to_next ps (ps.length - 1) = 0 ∧
        cuml_dist ps (ps.length - 1) =
          ∑ j ∈ Finset.range ps.length, dist_from_prev ps j) := by
  refine ⟨fun i h => ?_, rfl, fun hne => ⟨?_, ?_⟩⟩
  · rw [dist_to_next, if_pos h]
  · have hpos : 0 < ps.length := List.length_pos.2 hne
    rw [dist_to_next, if_neg (by omega)]
  · have hpos : 0 < ps.length := List.length_pos.2 hne
    have hidx : ps.length - 1 + 1 = ps.length := by omega
    rw [cuml_dist, hidx]

/-- Witness for C1 on the two-point list `[pA, pB]`. -/
theorem annotation_fields_consistent_witness :
    dist_to_next [pA, pB] 0 = dist_from_prev [pA, pB] 1 ∧
      dist_to_next [pA, pB] 1 = 0 :=
  ⟨(annotation_fields_consistent [pA, pB]).1 0 (by decide),
    ((annotation_fields_consistent [pA, pB]).2.2 (List.cons_ne_nil pA [pB])).1⟩

/-- C8: the cumulative distance column is non-negative everywhere and
non-decreasing from each row to the next. -/
theorem cuml_dist_nonneg_and_monotone (ps : List RoutePoint) (i : ℕ) :
    0 ≤ cuml_dist ps i ∧ cuml_dist ps i ≤ cuml_dist ps (i + 1) := by
  constructor
  · exact Finset.sum_nonneg fun j _ => dist_from_prev_nonneg ps j
  · have hsucc := Finset.sum_range_succ (dist_from_prev ps) (i + 1)
    rw [cuml_dist, cuml_dist, hsucc]
    exact le_add_of_nonneg_right (dist_from_prev_nonneg ps (i + 1))

/-- C10: annotation preserves the underlying points: same length, and in
every row the `node_id`, `node_lat` and `node_lon` of the input point. -/
theorem annotate_preserves_points (ps : List RoutePoint) :
    (annotate ps).length = ps.length ∧
      ∀ i : ℕ,
        ((annotate ps)[i]?).map AnnotatedNode.node_id =
            (ps[i]?).map RoutePoint.node_id ∧
          ((annotate ps)[i]?).map AnnotatedNode.node_lat =
            (ps[i]?).map RoutePoint.node_lat ∧
          ((annotate ps)[i]?).map AnnotatedNode.node_lon =
            (ps[i]?).map RoutePoint.node_lon := by
  refine ⟨by simp [annotate], fun i => ?_⟩
  rw [annotate, List.getElem?_mapIdx]
  cases ps[i]? <;> simp

/-! ### Geo serializer -/

lemma point_string_eq_spec (fmt : ℝ → String) (row : AnnotatedNode) (i n : ℕ) :
    point_string fmt row i n =
      (if i + 1 = n then spec_point_feature fmt row i
       else spec_point_feature fmt row i ++ ",") := by
  simp only [point_string, spec_point_feature]
  split_ifs with h1 h2 <;> first | omega | rfl

/-- C3 (amended to the `cuml_distance` key the code actually writes): the
point serializer emits exactly one feature per annotated node, and the
feature at index `i` is the spec's point feature for row `i` — properties
`node_order` (the 0-based position), `node_id`, `distance_from_prev_node`,
`cuml_distance`, `distance_to_next_node`, fixed `type` tag `route node`,
geometry a point at `[lon, lat]` — followed by a separating comma unless it
is the last feature. -/
theorem point_features_spec (fmt : ℝ → String) (df : List AnnotatedNode) :
    (point_features fmt df).length = df.length ∧
      ∀ i row, df[i]? = some row →
        (point_features fmt df)[i]? =
          some (if i + 1 = df.length then spec_point_feature fmt row i
                else spec_point_feature fmt row i ++ ",") := by
  refine ⟨by simp [point_features], fun i row h => ?_⟩
  rw [point_features, List.getElem?_mapIdx, h, Option.map_some', point_string_eq_spec]

/-- Witness for C3 on a one-row dataframe. -/
theorem point_features_spec_witness :
    (point_features fmt0 [row0])[0]? =
      some (if 0 + 1 = [row0].length then spec_point_feature fmt0 row0 0
            else spec_point_feature fmt0 row0 0 ++ ",") :=
  (point_features_spec fmt0 [row0]).2 0 row0 rfl

set_option maxRecDepth 16384 in
/-- Counterexample to C3 as stated: the emitted point feature carries no
property named `cumulative_distance` — the code writes the key
`cuml_distance` instead (line 122). -/
theorem point_feature_lacks_cumulative_distance_key :
    hasSubstr "cumulative_distance".data (point_string fmt0 row0 0 1).data = false := by
  decide

set_option maxRecDepth 16384 in
/-- C4 (code bug): the writing block renders every series cell through
pandas `to_string` while `display.max_colwidth` still has its default value
50, so each ~400-character point feature line — and the line collection's
header line — is cut to 47 characters plus dots, leaving unbalanced braces
in both geojson files.  Here, on a single-node dataframe, the point file has
two opening braces but one closing brace, and the line file one opening
brace but three closing braces. -/
theorem points_and_line_output_truncated :
    50 < (point_string fmt0 row0 0 1).data.length ∧
      charCount '\x7b' (points_file_lines fmt0 [row0]) = 2 ∧
      charCount '\x7d' (points_file_lines fmt0 [row0]) = 1 ∧
      charCount '\x7b' (line_file_lines fmt0 [row0]) = 1 ∧
      charCount '\x7d' (line_file_lines fmt0 [row0]) = 3 := by
  refine ⟨by decide, by decide, by decide, by decide, by decide⟩

/-! ### Route fetcher -/

/-- C9: the fetch yields a node sequence exactly on a well-formed 200
response; otherwise it signals a failure (`routeUnavailable` on a non-200
status, `malformedResponse` when route fields are absent) and the caller's
cleaning pass never runs — while every successfully fetched sequence is
passed on to the cleaning pass. -/
theorem get_nodes_failure_policy (fmt : ℝ → String) (o_lat o_lon d_lat d_lon : ℝ)
    (r : HttpResponse) :
    ((∃ ns, get_nodes fmt o_lat o_lon d_lat d_lon r = Except.ok ns) ↔
        wellFormedResponse r) ∧
      (¬ wellFormedResponse r →
        ∃ e, run_pipeline fmt o_lat o_lon d_lat d_lon r = Except.error e) ∧
      (∀ ns, get_nodes fmt o_lat o_lon d_lat d_lon r = Except.ok ns →
        run_pipeline fmt o_lat o_lon d_lat d_lon r = Except.ok (dedupe ns)) := by
  have hok : ∀ ns, get_nodes fmt o_lat o_lon d_lat d_lon r = Except.ok ns →
      wellFormedResponse r := by
    intro ns h
    by_cases h200 : r.status = 200
    · refine ⟨h200, ?_⟩
      rw [get_nodes, if_neg (by simp [h200])] at h
      rcases he : extract_steps r.body with _ | steps
      · rw [he] at h
        simp at h
      · rcases hb : r.body with _ | rb
        · rw [hb] at he
          simp [extract_steps] at he
        · rw [hb] at he
          rcases h0 : rb.routes.head? with _ | r0
          · simp [extract_steps, h0] at he
          · rcases h1 : r0.routes_legs.head? with _ | l0
            · simp [extract_steps, h0, h1] at he
            · exact ⟨rb, r0, l0, rfl, h0, h1⟩
    · rw [get_nodes, if_pos h200] at h
      simp at h
  have hwf : wellFormedResponse r →
      ∃ ns, get_nodes fmt o_lat o_lon d_lat d_lon r = Except.ok ns := by
    rintro ⟨h200, rb, r0, l0, hb, h0, h1⟩
    have he : extract_steps r.body = some l0.steps := by
      rw [hb]
      simp [extract_steps, h0, h1]
    rw [get_nodes, if_neg (by simp [h200]), he]
    exact ⟨_, rfl⟩
  refine ⟨⟨fun h => hok h.choose h.choose_spec, hwf⟩, ?_, ?_⟩
  · intro hnwf
    rcases hg : get_nodes fmt o_lat o_lon d_lat d_lon r with e | ns
    · exact ⟨e, by rw [run_pipeline, hg]; rfl⟩
    · exact absurd (hok ns hg) hnwf
  · intro ns h
    rw [run_pipeline, h]
    rfl

/-- Witness for C9: a 404 response aborts before the cleaning pass, while a
well-formed 200 response with one empty-stepped leg yields the start/end
sequence and reaches the cleaning pass. -/
theorem get_nodes_failure_policy_witness :
    (∃ e, run_pipeline fmt0 0 0 0 0 resp404 = Except.error e) ∧
      run_pipeline fmt0 0 0 0 0 resp200 =
        Except.ok (dedupe [⟨"start", 0, 0⟩, ⟨"end", 0, 0⟩]) :=
  ⟨(get_nodes_failure_policy fmt0 0 0 0 0 resp404).2.1
      (fun h => absurd h.1 (by decide)),
    (get_nodes_failure_policy fmt0 0 0 0 0 resp200).2.2
      [⟨"start", 0, 0⟩, ⟨"end", 0, 0⟩] rfl⟩

end RouteBuilder
